import Mathlib

/-!
Verification of `wimprates/elastic_nr.py` (elastic nuclear-recoil WIMP rates).

The Python module is floating-point numeric code; we embed it shallowly over
`ℝ`.  Python exceptions (`KeyError`, `ValueError`, `NotImplementedError`) are
modelled with an `Except Err` result type, one `Err` constructor per distinct
raise site / exception message.  The `numericalunits` constants the module
uses (`keV`, `MeV`, `GeV`, `c0`, `amu`, `mp`) are bundled in a `Units`
structure: `numericalunits` draws a random base scale at import time but
guarantees the exact relations `MeV = 1000*keV` and `GeV = 10^6*keV`, which we
record as fields.  Collaborators that live outside `src/` (the halo model,
`wr.v_max`, `scipy.integrate.quad`, the pickled structure-function table and
`scipy.interpolate.interp1d`) are modelled from the spec and passed as
explicit parameters.
-/

namespace Wimprates

/-- Unit-system collaborator (`numericalunits`): positive conversion constants
with the fixed metric relations between keV, MeV and GeV.  `amu` is the atomic
mass unit, `mp` the proton mass, `c0` the speed of light. -/
structure Units where
  keV : ℝ
  MeV : ℝ
  GeV : ℝ
  c0 : ℝ
  amu : ℝ
  mp : ℝ
  keV_pos : 0 < keV
  c0_pos : 0 < c0
  amu_pos : 0 < amu
  mp_pos : 0 < mp
  MeV_def : MeV = 1000 * keV
  GeV_def : GeV = 1000000 * keV

/-- A concrete consistent unit assignment (energies in keV, c0 = 1,
masses as energy equivalents), used to instantiate witnesses. -/
noncomputable def nuStd : Units :=
  ⟨1, 1000, 1000000, 1, 931494.1, 938272.1, by norm_num, by norm_num,
   by norm_num, by norm_num, by norm_num, by norm_num⟩

theorem Units.MeV_pos (U : Units) : 0 < U.MeV := by
  rw [U.MeV_def]; linarith [U.keV_pos]

theorem Units.GeV_pos (U : Units) : 0 < U.GeV := by
  rw [U.GeV_def]; linarith [U.keV_pos]

/-- Python exceptions raised by `elastic_nr.py`, one constructor per distinct
raise site: dictionary `KeyError` (carrying the missing key rendered as a
string), `ValueError("Invalid value of A!")`, `NotImplementedError` for SD on
a material without spin data, `ValueError("Unsupported DM-nucleus interaction
...")` carrying the offending interaction string, the `ValueError` raised by
`_warn_momentum_dependence`, and the `ValueError` raised by tuple unpacking
when `interaction.split` does not yield exactly three parts. -/
inductive Err where
  | keyError : String → Err
  | valueError : String → Err
  | notImplemented : String → Err
  | unsupportedInteraction : String → Err
  | momentumParams : Err
  | unpackError : Err
deriving DecidableEq

/-- `ATOMIC_WEIGHT` dict; `none` models a key absent from the dict. -/
def ATOMIC_WEIGHT (material : String) : Option ℝ :=
  if material = "Xe" then some 131.293
  else if material = "Ar" then some 39.948
  else if material = "Ge" then some 72.64
  else if material = "Si" then some 28.0855
  else none

/-- Python dict subscript: a missing key raises `KeyError`. -/
def liftLookup (key : String) (o : Option ℝ) : Except Err ℝ :=
  match o with
  | some v => Except.ok v
  | none => Except.error (Err.keyError key)

/-- `mn(material)`: mass of nucleus, `ATOMIC_WEIGHT[material] * nu.amu`. -/
noncomputable def mn (U : Units) (material : String) : Except Err ℝ := do
  let A ← liftLookup material (ATOMIC_WEIGHT material)
  Except.ok (A * U.amu)

/-- `reduced_mass(m1, m2) = m1 * m2 / (m1 + m2)`. -/
noncomputable def reduced_mass (m1 m2 : ℝ) : ℝ := m1 * m2 / (m1 + m2)

/-- `mu_nucleus(mw, material)`: DM-nucleus reduced mass. -/
noncomputable def mu_nucleus (U : Units) (mw : ℝ) (material : String) :
    Except Err ℝ := do
  let m ← mn U material
  Except.ok (reduced_mass mw m)

/-- `e_max(mw, v, m_nucleus)`: kinematic nuclear recoil energy maximum,
`2 * reduced_mass(mw, m_nucleus)^2 * v^2 / m_nucleus`.  A `None` nucleus mass
defaults to `mn()` = `mn('Xe')` = `131.293 * amu` (that dict lookup always
succeeds, so the default is a pure value). -/
noncomputable def e_max (U : Units) (mw v : ℝ) (m_nucleus : Option ℝ) : ℝ :=
  let m := match m_nucleus with
    | none => 131.293 * U.amu
    | some m => m
  2 * reduced_mass mw m ^ 2 * v ^ 2 / m

/-- `vmin_elastic(erec, mw, material)`: minimum WIMP velocity producing a
recoil of energy erec, `sqrt(mn * erec / (2 * mu_nucleus^2))`. -/
noncomputable def vmin_elastic (U : Units) (erec mw : ℝ) (material : String) :
    Except Err ℝ := do
  let m ← mn U material
  let mu ← mu_nucleus U mw material
  Except.ok (Real.sqrt (m * erec / (2 * mu ^ 2)))

theorem except_bind_ok {α β : Type} (a : α) (f : α → Except Err β) :
    (Except.ok a : Except Err α) >>= f = f a := rfl

theorem except_bind_error {α β : Type} (e : Err) (f : α → Except Err β) :
    (Except.error e : Except Err α) >>= f = Except.error e := rfl

theorem ATOMIC_WEIGHT_pos {material : String} {A : ℝ}
    (h : ATOMIC_WEIGHT material = some A) : 0 < A := by
  unfold ATOMIC_WEIGHT at h
  split at h
  · cases h; norm_num
  · split at h
    · cases h; norm_num
    · split at h
      · cases h; norm_num
      · split at h
        · cases h; norm_num
        · cases h

theorem mn_eq {U : Units} {material : String} {A : ℝ}
    (h : ATOMIC_WEIGHT material = some A) :
    mn U material = Except.ok (A * U.amu) := by
  simp [mn, liftLookup, h, except_bind_ok]

theorem mu_nucleus_eq {U : Units} {mw : ℝ} {material : String} {A : ℝ}
    (h : ATOMIC_WEIGHT material = some A) :
    mu_nucleus U mw material = Except.ok (reduced_mass mw (A * U.amu)) := by
  simp [mu_nucleus, mn_eq h, except_bind_ok]

theorem reduced_mass_pos {m1 m2 : ℝ} (h1 : 0 < m1) (h2 : 0 < m2) :
    0 < reduced_mass m1 m2 := by
  unfold reduced_mass
  positivity

/-- C5: `vmin_elastic` inverts `e_max` along the physical branch (and exactly,
in real arithmetic, not merely within tolerance):
`vmin_elastic (e_max mw v (mn material)) mw material = v` for every table
material, positive WIMP mass and nonnegative speed, and
`vmin_elastic 0 mw material = 0`. -/
theorem vmin_emax_inverse (U : Units) (material : String) (A mw v : ℝ)
    (hA : ATOMIC_WEIGHT material = some A) (hmw : 0 < mw) (hv : 0 ≤ v) :
    vmin_elastic U (e_max U mw v (some (A * U.amu))) mw material =
      Except.ok v ∧
    vmin_elastic U 0 mw material = Except.ok 0 := by
  have hA0 : 0 < A := ATOMIC_WEIGHT_pos hA
  have hm : 0 < A * U.amu := mul_pos hA0 U.amu_pos
  have hmu : 0 < reduced_mass mw (A * U.amu) := reduced_mass_pos hmw hm
  constructor
  · simp only [vmin_elastic, mn_eq hA, mu_nucleus_eq hA, e_max, except_bind_ok,
      Except.ok.injEq]
    have harg : A * U.amu * (2 * reduced_mass mw (A * U.amu) ^ 2 * v ^ 2 /
        (A * U.amu)) / (2 * reduced_mass mw (A * U.amu) ^ 2) = v ^ 2 := by
      field_simp
    rw [harg, Real.sqrt_sq hv]
  · simp only [vmin_elastic, mn_eq hA, mu_nucleus_eq hA, except_bind_ok,
      Except.ok.injEq]
    rw [mul_zero, zero_div, Real.sqrt_zero]

/-- `spherical_bessel_j1(x) = sin(x)/x**2 - cos(x)/x`.  Note: the source has
no special case at x = 0; there both divisions are by zero (IEEE: NaN). -/
noncomputable def spherical_bessel_j1 (x : ℝ) : ℝ :=
  Real.sin x / x ^ 2 - Real.cos x / x

/-- The dimensionless argument `qrn_over_hbarc` passed to
`spherical_bessel_j1` inside `helm_form_factor_squared`, with the same
intermediate quantities as the source (`en = erec/keV`,
`mnucl = amu/(GeV/c0^2)`, `c = 1.23*anucl^(1/3) - 0.60`, `a = 0.52`,
`s = 0.9`, `rn = sqrt(c^2 + (7/3)*pi^2*a^2 - 5*s^2)`,
`mass_kev = anucl*mnucl*1e6`, `q = sqrt(en*2*mass_kev)`,
`hbarc_kevfm = 197327`). -/
noncomputable def helmQrn (U : Units) (erec anucl : ℝ) : ℝ :=
  let en := erec / U.keV
  let mnucl := U.amu / (U.GeV / U.c0 ^ 2)
  let c := 1.23 * anucl ^ ((1 : ℝ) / 3) - 0.60
  let a := (0.52 : ℝ)
  let s := (0.9 : ℝ)
  let rn_sq := c ^ 2 + (7.0 / 3.0) * Real.pi ^ 2 * a ^ 2 - 5 * s ^ 2
  let rn := Real.sqrt rn_sq
  let mass_kev := anucl * mnucl * 1e6
  let q := Real.sqrt (en * 2 * mass_kev)
  q * rn / 197327

/-- Value computed by the body of `helm_form_factor_squared` after the
`anucl <= 0` check: `9 * j1(x)^2 / x^2 * exp(-(q*s/hbarc)^2)` with
`x = helmQrn`. -/
noncomputable def helmVal (U : Units) (erec anucl : ℝ) : ℝ :=
  let en := erec / U.keV
  let mnucl := U.amu / (U.GeV / U.c0 ^ 2)
  let mass_kev := anucl * mnucl * 1e6
  let q := Real.sqrt (en * 2 * mass_kev)
  let qrn_over_hbarc := helmQrn U erec anucl
  let sph_bess := spherical_bessel_j1 qrn_over_hbarc
  let retval := 9 * sph_bess * sph_bess / (qrn_over_hbarc * qrn_over_hbarc)
  let qs_over_hbarc := q * (0.9 : ℝ) / 197327
  retval * Real.exp (-(qs_over_hbarc * qs_over_hbarc))

/-- `helm_form_factor_squared(erec, anucl)`: Helm form factor squared from
Lewin & Smith; raises `ValueError` for `anucl <= 0`. -/
noncomputable def helm_form_factor_squared (U : Units) (erec anucl : ℝ) :
    Except Err ℝ :=
  if anucl ≤ 0 then Except.error (Err.valueError "Invalid value of A!")
  else Except.ok (helmVal U erec anucl)

/-- The variable denominators inside `helm_form_factor_squared` (the `x^2`
and `x` of `spherical_bessel_j1` and the `x*x` dividing `retval`) are all
powers of `helmQrn`; this predicate says they are nonzero, i.e. that no IEEE
division by zero (yielding inf/NaN) occurs in the floating-point source. -/
def helmDefined (U : Units) (erec anucl : ℝ) : Prop :=
  helmQrn U erec anucl ≠ 0

theorem helmQrn_pos (U : Units) {erec anucl : ℝ}
    (he : 0 < erec) (hA : 0 < anucl) : 0 < helmQrn U erec anucl := by
  have hkeV := U.keV_pos
  have hGeV := U.GeV_pos
  have hc0 := U.c0_pos
  have hamu := U.amu_pos
  simp only [helmQrn]
  refine div_pos (mul_pos (Real.sqrt_pos.mpr ?_) (Real.sqrt_pos.mpr ?_))
    (by norm_num)
  · positivity
  · have hpi : (3.141592 : ℝ) < Real.pi := Real.pi_gt_d6
    nlinarith [sq_nonneg (1.23 * anucl ^ ((1 : ℝ) / 3) - 0.60)]

theorem helmVal_nonneg (U : Units) (erec anucl : ℝ) :
    0 ≤ helmVal U erec anucl := by
  simp only [helmVal]
  have h1 : 0 ≤ 9 * spherical_bessel_j1 (helmQrn U erec anucl) *
      spherical_bessel_j1 (helmQrn U erec anucl) := by
    nlinarith [mul_self_nonneg (spherical_bessel_j1 (helmQrn U erec anucl))]
  exact mul_nonneg (div_nonneg h1 (mul_self_nonneg _)) (Real.exp_pos _).le

/-- C3 (amended): for A > 0 and erec > 0 the Helm form factor squared
succeeds, is nonnegative, and involves no division by zero; for A ≤ 0 it
fails with the invalid-argument `ValueError`.  (The original claim also
covered erec = 0, where the unguarded division by `x = 0` inside
`spherical_bessel_j1` makes the floating-point result non-finite; see the
counterexample.) -/
theorem helm_form_factor_pos_guard (U : Units) (erec anucl : ℝ) :
    (0 < anucl → 0 < erec →
      helm_form_factor_squared U erec anucl = Except.ok (helmVal U erec anucl)
      ∧ 0 ≤ helmVal U erec anucl ∧ helmDefined U erec anucl) ∧
    (anucl ≤ 0 → helm_form_factor_squared U erec anucl =
      Except.error (Err.valueError "Invalid value of A!")) := by
  constructor
  · intro hA he
    refine ⟨?_, helmVal_nonneg U erec anucl, ?_⟩
    · unfold helm_form_factor_squared
      rw [if_neg (not_le.mpr hA)]
    · exact ne_of_gt (helmQrn_pos U he hA)
  · intro hA
    unfold helm_form_factor_squared
    rw [if_pos hA]

/-- Witness for C3 (amended) at erec = 1 keV-unit, A = 131.293. -/
theorem helm_form_factor_pos_guard_witness :
    helm_form_factor_squared nuStd 1 131.293 =
      Except.ok (helmVal nuStd 1 131.293)
    ∧ 0 ≤ helmVal nuStd 1 131.293 ∧ helmDefined nuStd 1 131.293 :=
  (helm_form_factor_pos_guard nuStd 1 131.293).1 (by norm_num) (by norm_num)

/-- Counterexample to C3 as stated: at erec = 0 the argument `x` of
`spherical_bessel_j1` is exactly 0 and the source divides by it — there is no
guard extending `j1` by its limit value, so the IEEE result is non-finite
(NaN) rather than a finite nonnegative number. -/
theorem helm_form_factor_unguarded_at_zero :
    ¬ helmDefined nuStd 0 131.293 := by
  simp [helmDefined, helmQrn]

/-- `Q_REF = 10000 * nu.MeV / nu.c0`, the default reference momentum. -/
noncomputable def Q_REF (U : Units) : ℝ := 10000 * U.MeV / U.c0

/-- `spin_isotopes`: (A, mass, J, abundance) for the two spin-active xenon
isotopes. -/
noncomputable def spin_isotopes : List (ℕ × ℝ × ℝ × ℝ) :=
  [(129, 128.9047794, 1 / 2, 26.401e-2),
   (131, 130.9050824, 3 / 2, 21.232e-2)]

/-- Modelled from the spec: the pickled structure-function table
`sd/structure_f_erec_xe.pkl` is not under `src/`; the spec describes it as a
mapping from (isotope mass number, coupling, spin assumption) keys to value
arrays aligned with a fixed energy grid.  We model the loaded data as a
partial map from keys to (energy grid, values); `none` is an absent key
(dict `KeyError` on lookup). -/
def SFData : Type := ℕ × String × String → Option (List ℝ × List ℝ)

/-- Modelled from the spec: the inner piecewise-linear interpolation of
`scipy.interpolate.interp1d` ("linear (or equivalent smooth) between
samples"). -/
noncomputable def linInterp : List ℝ → List ℝ → ℝ → ℝ
  | x0 :: x1 :: xr, y0 :: y1 :: yr, x =>
    if x ≤ x1 then y0 + (y1 - y0) * (x - x0) / (x1 - x0)
    else linInterp (x1 :: xr) (y1 :: yr) x
  | _, y0 :: _, _ => y0
  | _, _, _ => 0

/-- Modelled from the spec: `scipy.interpolate.interp1d(xs, ys,
bounds_error=False, fill_value=0)` — evaluates to 0 strictly outside the
sampled grid `[xs[0], xs[-1]]`, and by interpolation inside. -/
noncomputable def interp1dZero (xs ys : List ℝ) (x : ℝ) : ℝ :=
  if x < xs.headD 0 ∨ xs.getLastD 0 < x then 0 else linInterp xs ys x

/-- The accumulation loop of the SD branch of `sigma_erec`: for each
spin-active isotope, look up the structure function for
(A, coupling, s_assumption) (dict lookup: `KeyError` if absent), form
`x = sigma_nucleon * 4*pi * reduced_mass(mw, mn_isotope)^2
/ (3 * reduced_mass(mw, mp)^2 * (2*J+1))` and add
`abundance * x / e_max(mw, v, mn_isotope) * s(erec/keV)`. -/
noncomputable def sdSum (U : Units) (sf : SFData) (erec v mw sigma_nucleon : ℝ)
    (coupling s_assumption : String) :
    List (ℕ × ℝ × ℝ × ℝ) → Except Err ℝ
  | [] => Except.ok 0
  | (A, mniso, J, abundance) :: rest => do
    let sdata ← (match sf (A, coupling, s_assumption) with
      | some d => Except.ok d
      | none => Except.error (Err.keyError
          (toString A ++ "," ++ coupling ++ "," ++ s_assumption)))
    let mn_isotope := mniso * U.amu
    let x := sigma_nucleon * 4 * Real.pi * reduced_mass mw mn_isotope ^ 2 /
      (3 * reduced_mass mw U.mp ^ 2 * (2 * J + 1))
    let term := abundance * x / e_max U mw v (some mn_isotope) *
      interp1dZero sdata.1 sdata.2 (erec / U.keV)
    let acc ← sdSum U sf erec v mw sigma_nucleon coupling s_assumption rest
    Except.ok (term + acc)

/-- `mediator_factor(erec, m_med, material)`: 1 for an infinite mediator mass
(`m_med = none` models Python `float('inf')`), else
`m_med^4 / (m_med^2 + (q/c0)^2)^2` with `q = (2*mn*erec)**0.5`. -/
noncomputable def mediator_factor (U : Units) (erec : ℝ) (m_med : Option ℝ)
    (material : String) : Except Err ℝ :=
  match m_med with
  | none => Except.ok 1
  | some m => do
    let mnm ← mn U material
    let q := Real.sqrt (2 * mnm * erec)
    Except.ok (m ^ 4 / (m ^ 2 + (q / U.c0) ^ 2) ^ 2)

/-- `extra_momentum_factor(erec, m_med, material, n, q_ref)`: extra momentum
dependence for MDDM.  The code sets `q = (2*mn*erec)**0.5 / c0` and rescales
the supplied reference momentum as `q_ref = q_ref * MeV / c0 / GeV`, then
returns `(q/q_ref)**(2n)` in the contact limit and
`(q/q_ref)**(2n) * (q_ref^2 + m_med^2)/(q^2 + m_med^2)` otherwise.
Python float `**` on the positive base is real `rpow`. -/
noncomputable def extra_momentum_factor (U : Units) (erec : ℝ)
    (m_med : Option ℝ) (material : String) (n q_ref : ℝ) : Except Err ℝ := do
  let mnm ← mn U material
  let q0 := Real.sqrt (2 * mnm * erec)
  let q := q0 / U.c0
  let qr := q_ref * U.MeV / U.c0 / U.GeV
  match m_med with
  | none => Except.ok ((q / qr) ^ (2 * n))
  | some m => Except.ok ((q / qr) ^ (2 * n) *
      ((qr ^ 2 + m ^ 2) / (q ^ 2 + m ^ 2)))

/-- Python `str.split(sep)` on a character separator, on the underlying
character list: splits at every occurrence, keeping empty pieces. -/
def splitChars (sep : Char) : List Char → List (List Char)
  | [] => [[]]
  | c :: cs =>
    let r := splitChars sep cs
    if c = sep then [] :: r
    else
      match r with
      | [] => [[c]]
      | g :: gs => (c :: g) :: gs

/-- Python `interaction.split(sep)` for a one-character separator. -/
def pySplit (s : String) (sep : Char) : List String :=
  (splitChars sep s.toList).map (fun cs => String.mk cs)

/-- Python `s.startswith(pre)`. -/
def pyStartswith (s pre : String) : Bool :=
  pre.toList.isPrefixOf s.toList

/-- `sigma_erec(erec, v, mw, sigma_nucleon, interaction, m_med, material, n,
q_ref)`: differential elastic WIMP-nucleus cross section.  Branches on the
interaction family, then multiplies by `mediator_factor`, and by
`extra_momentum_factor` only when both `n` and `q_ref` are supplied.
The three-way tuple unpacking of `interaction.split('_')` raises a
`ValueError` (modelled by `Err.unpackError`) unless the split yields exactly
three parts. -/
noncomputable def sigma_erec (U : Units) (sf : SFData)
    (erec v mw sigma_nucleon : ℝ) (interaction : String) (m_med : Option ℝ)
    (material : String) (n q_ref : Option ℝ) : Except Err ℝ := do
  let base ←
    if interaction = "SI" then do
      let munuc ← mu_nucleus U mw material
      let A ← liftLookup material (ATOMIC_WEIGHT material)
      let sigma_nucleus := sigma_nucleon *
        (munuc / reduced_mass U.amu mw) ^ 2 * A ^ 2
      let mnm ← mn U material
      let ff ← helm_form_factor_squared U erec A
      Except.ok (sigma_nucleus / e_max U mw v (some mnm) * ff)
    else if pyStartswith interaction "SD" then
      if material ≠ "Xe" then Except.error (Err.notImplemented material)
      else
        match pySplit interaction '_' with
        | [_, coupling, s_assumption] =>
          sdSum U sf erec v mw sigma_nucleon coupling s_assumption
            spin_isotopes
        | _ => Except.error Err.unpackError
    else Except.error (Err.unsupportedInteraction interaction)
  let mf ← mediator_factor U erec m_med material
  let result := base * mf
  match n, q_ref with
  | some nv, some qv => do
    let ex ← extra_momentum_factor U erec m_med material nv qv
    Except.ok (result * ex)
  | _, _ => Except.ok result

/-- True exactly when a `sigma_erec` call returned a value rather than
raising. -/
def exceptIsOk : Except Err ℝ → Bool
  | Except.ok _ => true
  | Except.error _ => false

/-- An empty structure-function table, for calls that never consult it. -/
def sfEmpty : SFData := fun _ => none

/-- Shared reduction lemma: the SI branch with `q_ref = None` (so the extra
momentum factor is skipped) and an infinite mediator mass evaluates to the
closed SI formula.  Used by several claims below. -/
theorem sigma_erec_SI_qref_none (U : Units) (sf : SFData)
    (erec v mw sigma_nucleon : ℝ) (material : String) (A : ℝ) (n : Option ℝ)
    (hA : ATOMIC_WEIGHT material = some A) :
    sigma_erec U sf erec v mw sigma_nucleon "SI" none material n none =
      Except.ok (sigma_nucleon *
        (reduced_mass mw (A * U.amu) / reduced_mass U.amu mw) ^ 2 * A ^ 2 /
        e_max U mw v (some (A * U.amu)) * helmVal U erec A) := by
  have hA0 : 0 < A := ATOMIC_WEIGHT_pos hA
  cases n <;>
  simp [sigma_erec, mu_nucleus_eq hA, mn_eq hA, liftLookup, hA,
    helm_form_factor_squared, if_neg (not_le.mpr hA0), mediator_factor,
    except_bind_ok]

/-- C1: with interaction SI, a contact mediator (infinite mediator mass) and
no momentum-dependence parameters, the cross section is
`sigma_nucleon * (mu_nucleus/mu_nucleon)^2 * A^2 / e_max(mw, v, mn(material))
* helm_form_factor_squared(erec, A)`, where `mu_nucleon = reduced_mass(amu,
mw)` and `helmVal` is the ok-value of `helm_form_factor_squared`. -/
theorem sigma_erec_SI_contact_formula (U : Units) (sf : SFData)
    (material : String) (A erec v mw sigma_nucleon : ℝ)
    (hA : ATOMIC_WEIGHT material = some A)
    (he : 0 ≤ erec) (hv : 0 < v) (hmw : 0 < mw) :
    sigma_erec U sf erec v mw sigma_nucleon "SI" none material none none =
      Except.ok (sigma_nucleon *
        (reduced_mass mw (A * U.amu) / reduced_mass U.amu mw) ^ 2 * A ^ 2 /
        e_max U mw v (some (A * U.amu)) * helmVal U erec A) :=
  sigma_erec_SI_qref_none U sf erec v mw sigma_nucleon material A none hA

/-- Witness for C1 at material Xe in the standard units. -/
theorem sigma_erec_SI_contact_formula_witness :
    sigma_erec nuStd sfEmpty 1 1 1 1 "SI" none "Xe" none none =
      Except.ok (1 *
        (reduced_mass 1 (131.293 * nuStd.amu) / reduced_mass nuStd.amu 1) ^ 2
        * 131.293 ^ 2 /
        e_max nuStd 1 1 (some (131.293 * nuStd.amu)) * helmVal nuStd 1 131.293)
    :=
  sigma_erec_SI_contact_formula nuStd sfEmpty "Xe" 131.293 1 1 1 1 rfl
    (by norm_num) (by norm_num) (by norm_num)

/-- Counterexample to C6 as stated: supplying only `n` (and no `q_ref`) to
the public cross-section operation does NOT fail — `sigma_erec` has no
momentum-parameter validation and silently skips the extra momentum factor.
-/
theorem sigma_erec_lone_n_no_error :
    exceptIsOk (sigma_erec nuStd sfEmpty 1 1 1 1 "SI" none "Xe"
      (some 1) none) = true := by
  rw [sigma_erec_SI_qref_none nuStd sfEmpty 1 1 1 1 "Xe" 131.293 (some 1) rfl]
  rfl

/-- C7 (amended): an interaction string that is neither `"SI"` nor starts
with `"SD"` fails with the unsupported-interaction error naming the string.
(Strings that do start with `"SD"` but are malformed raise a different
error; see the counterexample.) -/
theorem sigma_erec_unrecognized_interaction (U : Units) (sf : SFData)
    (erec v mw sigma_nucleon : ℝ) (m_med : Option ℝ) (material : String)
    (n q_ref : Option ℝ) (s : String)
    (h1 : ¬ s = "SI") (h2 : pyStartswith s "SD" = false) :
    sigma_erec U sf erec v mw sigma_nucleon s m_med material n q_ref =
      Except.error (Err.unsupportedInteraction s) := by
  unfold sigma_erec
  rw [if_neg h1, if_neg (by simp [h2])]
  rfl

/-- Witness for C7 (amended) at the spec's example string "XYZ". -/
theorem sigma_erec_unrecognized_interaction_witness :
    sigma_erec nuStd sfEmpty 1 1 1 1 "XYZ" none "Xe" none none =
      Except.error (Err.unsupportedInteraction "XYZ") :=
  sigma_erec_unrecognized_interaction nuStd sfEmpty 1 1 1 1 none "Xe"
    none none "XYZ" (by decide) (by decide)

/-- Counterexample to C7 as stated: the malformed interaction string `"SD"`
(which the claim says must fail with the unsupported-interaction error naming
it) instead enters the SD branch (`startswith('SD')` is true) and dies in the
three-way tuple unpacking of `"SD".split('_') = ["SD"]` — a different
`ValueError`. -/
theorem sigma_erec_SD_malformed_unpack :
    sigma_erec nuStd sfEmpty 1 1 1 1 "SD" none "Xe" none none =
      Except.error Err.unpackError ∧
    Err.unpackError ≠ Err.unsupportedInteraction "SD" :=
  ⟨rfl, by decide⟩

/-- Modelled from the spec: the halo-model collaborator must expose a local
dark-matter density `rho_dm`, an escape velocity `v_esc`, and a velocity
distribution density of (speed, optional timestamp). -/
structure HaloModel where
  rho_dm : ℝ
  v_esc : ℝ
  velocity_dist : ℝ → Option ℝ → ℝ

/-- Modelled from the spec: the collaborators `rate_elastic` imports from the
rest of the repository / scipy, none of which are under `src/`:
`wr.StandardHaloModel()` (the default halo model), `wr.v_max(t, v_esc)` (the
maximum accessible halo speed at a timestamp), and `scipy.integrate.quad`
(an adaptive quadrature taking the integrand and the two endpoints; a Python
exception raised inside the integrand aborts the call, hence the `Except`
in its type). -/
structure Collab where
  standardHaloModel : HaloModel
  v_max : Option ℝ → ℝ → ℝ
  quad : (ℝ → Except Err ℝ) → ℝ → ℝ → Except Err ℝ

/-- `rate_elastic(erec, mw, sigma_nucleon, interaction, m_med, t, material,
halo_model, **kwargs)` (scalar path of the vectorized function): resolve the
default halo model, compute `v_min`, return 0 if
`v_min >= wr.v_max(t, halo_model.v_esc)`, then validate the momentum
parameters (`_warn_momentum_dependence`), then integrate
`sigma_erec(erec, v, ...) * v * velocity_dist(v, t)` from `v_min` to
`v_max` and scale by `rho_dm / mw * (1 / mn(material))`.  The kwargs `n` and
`q_ref` are the momentum-dependence parameters; remaining integrator
tolerance kwargs are collaborator configuration and are absorbed into
`C.quad`. -/
noncomputable def rate_elastic (U : Units) (C : Collab) (sf : SFData)
    (erec mw sigma_nucleon : ℝ) (interaction : String) (m_med : Option ℝ)
    (t : Option ℝ) (material : String) (halo_model : Option HaloModel)
    (n q_ref : Option ℝ) : Except Err ℝ := do
  let hm := match halo_model with
    | none => C.standardHaloModel
    | some h => h
  let v_min ← vmin_elastic U erec mw material
  if C.v_max t hm.v_esc ≤ v_min then
    Except.ok 0
  else do
    if n.isNone ≠ q_ref.isNone then Except.error Err.momentumParams
    else do
      let integrand : ℝ → Except Err ℝ := fun v => do
        let s ← sigma_erec U sf erec v mw sigma_nucleon interaction m_med
          material n q_ref
        Except.ok (s * v * hm.velocity_dist v t)
      let mnm ← mn U material
      let I ← C.quad integrand v_min (C.v_max t hm.v_esc)
      Except.ok (hm.rho_dm / mw * (1 / mnm) * I)

/-- Modelled from the spec: `@wr.vectorize_first` (in `wimprates/utils.py`,
not under `src/`) evaluates the decorated function independently per element
of the first argument and returns the results in the same order. -/
noncomputable def rate_elastic_vec (U : Units) (C : Collab) (sf : SFData)
    (erecs : List ℝ) (mw sigma_nucleon : ℝ) (interaction : String)
    (m_med : Option ℝ) (t : Option ℝ) (material : String)
    (halo_model : Option HaloModel) (n q_ref : Option ℝ) :
    List (Except Err ℝ) :=
  erecs.map (fun erec => rate_elastic U C sf erec mw sigma_nucleon interaction
    m_med t material halo_model n q_ref)

/-- C2: whenever `vmin_elastic(erec, mw, material) >= v_max(t, v_esc)`, the
rate is exactly 0, for every interaction string and every setting of the
momentum-dependence parameters — and for EVERY integrator `C.quad` (the
conclusion does not depend on it), i.e. the integrator is not invoked. -/
theorem rate_elastic_shortcircuit_zero (U : Units) (C : Collab) (sf : SFData)
    (erec mw sigma_nucleon : ℝ) (interaction : String) (m_med : Option ℝ)
    (t : Option ℝ) (material : String) (halo_model : Option HaloModel)
    (n q_ref : Option ℝ) (vm : ℝ)
    (hvmin : vmin_elastic U erec mw material = Except.ok vm)
    (hge : C.v_max t (match halo_model with
      | none => C.standardHaloModel
      | some h => h).v_esc ≤ vm) :
    rate_elastic U C sf erec mw sigma_nucleon interaction m_med t material
      halo_model n q_ref = Except.ok 0 := by
  unfold rate_elastic
  rw [hvmin, except_bind_ok, if_pos hge]

/-- A collaborator assignment whose `v_max` is identically 0 and whose
integrator returns a nonzero sentinel, used for the C2 witness: the result 0
shows the sentinel (the integrator) is never consulted. -/
noncomputable def collabZero : Collab :=
  ⟨⟨1, 1, fun _ _ => 1⟩, fun _ _ => 0, fun _ _ _ => Except.ok 12345⟩

/-- Witness for C2: at erec = 1, mw = 1 on Xe, `v_max = 0 <= v_min`, so the
rate is 0 even though the integrator would have returned 12345. -/
theorem rate_elastic_shortcircuit_zero_witness :
    rate_elastic nuStd collabZero sfEmpty 1 1 1 "SI" none none "Xe" none
      (some 1) none = Except.ok 0 :=
  rate_elastic_shortcircuit_zero nuStd collabZero sfEmpty 1 1 1 "SI" none
    none "Xe" none (some 1) none
    (Real.sqrt (131.293 * nuStd.amu * 1 /
      (2 * reduced_mass 1 (131.293 * nuStd.amu) ^ 2)))
    (by simp only [vmin_elastic, @mn_eq nuStd "Xe" 131.293 rfl,
          @mu_nucleus_eq nuStd 1 "Xe" 131.293 rfl, except_bind_ok])
    (Real.sqrt_nonneg _)

/-- C6 (amended): the inconsistent-momentum-params `ValueError` is raised by
the rate operation, before any call to the integrator (the conclusion holds
for every `C.quad`) — but only on the path where the kinematic short-circuit
did not fire (`v_min < v_max`); `sigma_erec` itself performs no such
validation (see the counterexample). -/
theorem rate_elastic_lone_momentum_param (U : Units) (C : Collab)
    (sf : SFData) (erec mw sigma_nucleon : ℝ) (interaction : String)
    (m_med : Option ℝ) (t : Option ℝ) (material : String)
    (halo_model : Option HaloModel) (n q_ref : Option ℝ) (vm : ℝ)
    (hvmin : vmin_elastic U erec mw material = Except.ok vm)
    (hlt : vm < C.v_max t (match halo_model with
      | none => C.standardHaloModel
      | some h => h).v_esc)
    (hnq : n.isNone ≠ q_ref.isNone) :
    rate_elastic U C sf erec mw sigma_nucleon interaction m_med t material
      halo_model n q_ref = Except.error Err.momentumParams := by
  unfold rate_elastic
  rw [hvmin, except_bind_ok, if_neg (not_le.mpr hlt), if_pos hnq]

/-- A collaborator assignment whose `v_max` is identically 1, so the
kinematic short-circuit does not fire at `v_min = 0`. -/
noncomputable def collabOne : Collab :=
  ⟨⟨1, 1, fun _ _ => 1⟩, fun _ _ => 1, fun _ _ _ => Except.ok 0⟩

/-- Witness for C6 (amended): only `n` supplied, `v_min = 0 < 1 = v_max`. -/
theorem rate_elastic_lone_momentum_param_witness :
    rate_elastic nuStd collabOne sfEmpty 0 1 1 "SI" none none "Xe" none
      (some 1) none = Except.error Err.momentumParams :=
  rate_elastic_lone_momentum_param nuStd collabOne sfEmpty 0 1 1 "SI" none
    none "Xe" none (some 1) none 0
    (by simp only [vmin_elastic, @mn_eq nuStd "Xe" 131.293 rfl,
          @mu_nucleus_eq nuStd 1 "Xe" 131.293 rfl, except_bind_ok, mul_zero,
          zero_div, Real.sqrt_zero])
    (by simp [collabOne])
    (by simp)

/-- C9: the vectorized rate call evaluates the scalar rate independently per
element: the output list has the input length and its k-th entry equals the
scalar call on the k-th recoil energy, for every k and every fixed setting of
the other parameters. -/
theorem rate_elastic_vec_elementwise (U : Units) (C : Collab) (sf : SFData)
    (erecs : List ℝ) (mw sigma_nucleon : ℝ) (interaction : String)
    (m_med : Option ℝ) (t : Option ℝ) (material : String)
    (halo_model : Option HaloModel) (n q_ref : Option ℝ) :
    (rate_elastic_vec U C sf erecs mw sigma_nucleon interaction m_med t
      material halo_model n q_ref).length = erecs.length ∧
    ∀ k : ℕ,
      (rate_elastic_vec U C sf erecs mw sigma_nucleon interaction m_med t
        material halo_model n q_ref)[k]? =
      (erecs[k]?).map (fun erec => rate_elastic U C sf erec mw sigma_nucleon
        interaction m_med t material halo_model n q_ref) := by
  refine ⟨?_, fun k => ?_⟩
  · simp [rate_elastic_vec]
  · simp [rate_elastic_vec]

/-- C10 (amended): a material absent from `ATOMIC_WEIGHT` makes the
nucleus-mass lookup — and hence the SI cross-section call and every rate call
— raise the dictionary `KeyError`, which is none of the four designed error
classes.  (SD cross-section calls are different: see the counterexample.) -/
theorem unknown_material_keyerror (U : Units) (C : Collab) (sf : SFData)
    (erec v mw sigma_nucleon : ℝ) (m_med : Option ℝ) (t : Option ℝ)
    (interaction : String) (halo_model : Option HaloModel)
    (n q_ref : Option ℝ) (material : String)
    (h : ATOMIC_WEIGHT material = none) :
    mn U material = Except.error (Err.keyError material) ∧
    sigma_erec U sf erec v mw sigma_nucleon "SI" m_med material n q_ref =
      Except.error (Err.keyError material) ∧
    rate_elastic U C sf erec mw sigma_nucleon interaction m_med t material
      halo_model n q_ref = Except.error (Err.keyError material) := by
  have hmn : mn U material = Except.error (Err.keyError material) := by
    simp [mn, liftLookup, h, except_bind_error]
  have hmu : mu_nucleus U mw material =
      Except.error (Err.keyError material) := by
    simp [mu_nucleus, hmn, except_bind_error]
  refine ⟨hmn, ?_, ?_⟩
  · simp [sigma_erec, hmu, except_bind_error]
  · have hvm : vmin_elastic U erec mw material =
        Except.error (Err.keyError material) := by
      simp [vmin_elastic, hmn, except_bind_error]
    simp [rate_elastic, hvm, except_bind_error]

/-- Witness for C10 (amended) at the unknown material "Na". -/
theorem unknown_material_keyerror_witness :
    mn nuStd "Na" = Except.error (Err.keyError "Na") ∧
    sigma_erec nuStd sfEmpty 1 1 1 1 "SI" none "Na" none none =
      Except.error (Err.keyError "Na") ∧
    rate_elastic nuStd collabOne sfEmpty 1 1 1 "SI" none none "Na" none
      none none = Except.error (Err.keyError "Na") :=
  unknown_material_keyerror nuStd collabOne sfEmpty 1 1 1 1 none none "SI"
    none none none "Na" rfl

/-- Counterexample to C10 as stated: an SD cross-section call with the
unknown material "Na" raises `NotImplementedError` (the designed
unsupported-configuration error) before the nucleus-mass lookup is ever
reached, not a `KeyError`. -/
theorem sigma_erec_SD_unknown_material_not_keyerror :
    sigma_erec nuStd sfEmpty 1 1 1 1 "SD_n_1" none "Na" none none =
      Except.error (Err.notImplemented "Na") ∧
    Err.notImplemented "Na" ≠ Err.keyError "Na" :=
  ⟨rfl, by decide⟩

/-- C4 (amended): the extra momentum-dependence factor is
`(qhat/qhat_ref)^(2n)` in the contact limit and
`(qhat/qhat_ref)^(2n) * (qhat_ref^2 + m_med^2)/(qhat^2 + m_med^2)`
otherwise, where `qhat = sqrt(2*mn*erec)/c0` and
`qhat_ref = q_ref * MeV / c0 / GeV`: the code divides the momentum transfer
by `c0` and RESCALES the supplied reference momentum by `MeV/(c0*GeV)`
instead of using `q = sqrt(2*mn*erec)` and the supplied `q_ref` directly as
the original claim states (see the counterexample). -/
theorem extra_momentum_factor_formula (U : Units) (material : String)
    (A erec n q_ref : ℝ) (hA : ATOMIC_WEIGHT material = some A)
    (he : 0 < erec) (hq : 0 < q_ref) :
    extra_momentum_factor U erec none material n q_ref =
      Except.ok ((Real.sqrt (2 * (A * U.amu) * erec) / U.c0 /
        (q_ref * U.MeV / U.c0 / U.GeV)) ^ (2 * n)) ∧
    ∀ m : ℝ, extra_momentum_factor U erec (some m) material n q_ref =
      Except.ok ((Real.sqrt (2 * (A * U.amu) * erec) / U.c0 /
        (q_ref * U.MeV / U.c0 / U.GeV)) ^ (2 * n) *
        (((q_ref * U.MeV / U.c0 / U.GeV) ^ 2 + m ^ 2) /
         ((Real.sqrt (2 * (A * U.amu) * erec) / U.c0) ^ 2 + m ^ 2))) := by
  constructor
  · simp [extra_momentum_factor, mn_eq hA, except_bind_ok]
  · intro m
    simp [extra_momentum_factor, mn_eq hA, except_bind_ok]

/-- Witness for C4 (amended), contact limit, at erec = 1, n = 1, q_ref = 1
on Xe in the standard units. -/
theorem extra_momentum_factor_formula_witness :
    extra_momentum_factor nuStd 1 none "Xe" 1 1 =
      Except.ok ((Real.sqrt (2 * (131.293 * nuStd.amu) * 1) / nuStd.c0 /
        (1 * nuStd.MeV / nuStd.c0 / nuStd.GeV)) ^ ((2 : ℝ) * 1)) :=
  (extra_momentum_factor_formula nuStd "Xe" 131.293 1 1 1 rfl (by norm_num)
    (by norm_num)).1

/-- Counterexample to C4 as stated: in the consistent standard unit system,
with erec = 1, n = 1 and supplied reference momentum `q_ref = 1`, the code
does NOT return `(q/q_ref)^(2n)` with `q = sqrt(2*mn*erec)`: it rescales
`q_ref` by `MeV/(c0*GeV) = 1/1000`, making the result `10^6` times larger.
-/
theorem extra_momentum_factor_unit_rescale_cex :
    extra_momentum_factor nuStd 1 none "Xe" 1 1 ≠
      Except.ok ((Real.sqrt (2 * (131.293 * (931494.1 : ℝ)) * 1) / 1) ^
        ((2 : ℝ) * 1)) := by
  have hA : ATOMIC_WEIGHT "Xe" = some 131.293 := rfl
  have hK : (0 : ℝ) < 2 * (131.293 * 931494.1) * 1 := by norm_num
  have hqpos : 0 < Real.sqrt (2 * (131.293 * (931494.1 : ℝ)) * 1) :=
    Real.sqrt_pos.mpr hK
  have h1 : extra_momentum_factor nuStd 1 none "Xe" 1 1 =
      Except.ok ((Real.sqrt (2 * (131.293 * (931494.1 : ℝ)) * 1) * 1000) ^
        ((2 : ℝ) * 1)) := by
    simp only [extra_momentum_factor, mn_eq hA, except_bind_ok]
    congr 2
    show Real.sqrt (2 * (131.293 * (931494.1 : ℝ)) * 1) / 1 /
      ((1 : ℝ) * 1000 / 1 / 1000000) =
      Real.sqrt (2 * (131.293 * (931494.1 : ℝ)) * 1) * 1000
    rw [div_one, one_mul, div_one,
      show ((1000 : ℝ) / 1000000) = 1 / 1000 by norm_num,
      div_div_eq_mul_div, div_one]
  rw [h1, Ne, Except.ok.injEq]
  intro hcontra
  have hlt : (Real.sqrt (2 * (131.293 * (931494.1 : ℝ)) * 1) / 1) ^
      ((2 : ℝ) * 1) <
      (Real.sqrt (2 * (131.293 * (931494.1 : ℝ)) * 1) * 1000) ^
      ((2 : ℝ) * 1) := by
    refine Real.rpow_lt_rpow (by positivity) ?_ (by norm_num)
    rw [div_one]
    nlinarith [hqpos]
  exact (ne_of_gt hlt) hcontra

/-- C8: for an SD interaction label whose structure functions are tabulated
for both spin-active isotopes, a recoil energy strictly outside each
tabulated energy grid makes every interpolated structure-function value 0,
so the spin-dependent cross section is exactly 0 (no error is raised). -/
theorem sigma_erec_SD_out_of_range (U : Units) (sf : SFData)
    (erec v mw sigma_nucleon : ℝ)
    (interaction coupling s_assumption : String) (xs1 ys1 xs2 ys2 : List ℝ)
    (hne : ¬ interaction = "SI")
    (hsd : pyStartswith interaction "SD" = true)
    (hsplit : pySplit interaction '_' = ["SD", coupling, s_assumption])
    (h129 : sf (129, coupling, s_assumption) = some (xs1, ys1))
    (h131 : sf (131, coupling, s_assumption) = some (xs2, ys2))
    (hout1 : erec / U.keV < xs1.headD 0 ∨ xs1.getLastD 0 < erec / U.keV)
    (hout2 : erec / U.keV < xs2.headD 0 ∨ xs2.getLastD 0 < erec / U.keV) :
    sigma_erec U sf erec v mw sigma_nucleon interaction none "Xe" none none =
      Except.ok 0 := by
  have hi1 : interp1dZero xs1 ys1 (erec / U.keV) = 0 := by
    unfold interp1dZero
    rw [if_pos hout1]
  have hi2 : interp1dZero xs2 ys2 (erec / U.keV) = 0 := by
    unfold interp1dZero
    rw [if_pos hout2]
  unfold sigma_erec
  rw [if_neg hne, if_pos hsd, if_neg (by simp), hsplit]
  simp [sdSum, spin_isotopes, h129, h131, hi1, hi2, except_bind_ok,
    mediator_factor]

/-- A two-key structure-function table on the grid [1, 2], for the C8
witness. -/
noncomputable def sfPair : SFData := fun k =>
  if k = (129, "n", "1") then some ([1, 2], [5, 6])
  else if k = (131, "n", "1") then some ([1, 2], [7, 8])
  else none

/-- Witness for C8: interaction "SD_n_1" on Xe at erec = 3, above the grid
maximum 2 of both tabulated isotopes. -/
theorem sigma_erec_SD_out_of_range_witness :
    sigma_erec nuStd sfPair 3 1 1 1 "SD_n_1" none "Xe" none none =
      Except.ok 0 :=
  sigma_erec_SD_out_of_range nuStd sfPair 3 1 1 1 "SD_n_1" "n" "1"
    [1, 2] [5, 6] [1, 2] [7, 8] (by decide) (by decide) (by decide)
    rfl rfl
    (Or.inr (by norm_num [nuStd, List.getLastD]))
    (Or.inr (by norm_num [nuStd, List.getLastD]))

/-- Witness for C5 at material Xe, mw = 1, v = 1 in the standard units. -/
theorem vmin_emax_inverse_witness :
    vmin_elastic nuStd (e_max nuStd 1 1 (some (131.293 * nuStd.amu))) 1 "Xe" =
      Except.ok 1 ∧
    vmin_elastic nuStd 0 1 "Xe" = Except.ok 0 :=
  vmin_emax_inverse nuStd "Xe" 131.293 1 1 rfl (by norm_num) (by norm_num)

end Wimprates
